import Mathlib


/-!
Shallow embedding of the chat client's state reconciliation layer
(`src/contexts/ChatContext.tsx` and `src/utils/chatUtils.ts`).

Modelling conventions:
* Timestamps are modelled by their epoch-millisecond value: the code stores
  ISO strings and always compares them through `new Date(s).getTime()`.
* JavaScript object maps keyed by `chatId` are modelled as total functions
  `Int → Option α`; the code's `state.messages[chatId] || []` lookups become
  `Option.getD`.
* `Date.now()` is passed in explicitly as a `now : Int` argument wherever the
  code reads the clock.
* JavaScript string coalescing `a || b` (where an empty string is falsy) is
  modelled by `jsOr`.
* Fallible remote calls are modelled by an explicit outcome argument; a
  re-raised error is modelled as a `Bool` in the result (`true` = thrown).
-/

structure User where
  id : Int
  username : String
  createdAt : String
deriving DecidableEq

structure Message where
  id : Int
  chatId : Int
  senderId : Int
  sender : User
  content : String
  timestamp : Int
  status : String
deriving DecidableEq

/-- A realtime `MessageData` payload carries `id: string | number`. -/
inductive MsgId where
  | num (n : Int)
  | str (s : String)
deriving DecidableEq

structure MessageData where
  id : MsgId
  chatId : Int
  senderId : Int
  senderUsername : Option String
  content : String
  timestamp : Int
  status : String
deriving DecidableEq

inductive ChatType where
  | direct
  | group
deriving DecidableEq

structure ChatParticipant where
  chatId : Int
  userId : Int
  joinedAt : String
  user : Option User
  username : Option String
deriving DecidableEq

structure Chat where
  id : Int
  name : String
  type : ChatType
  createdAt : String
  participants : List ChatParticipant
deriving DecidableEq

structure OnlineUser where
  userId : Int
  username : String
deriving DecidableEq

structure TypingUser where
  userId : Int
  username : String
  isTyping : Bool
deriving DecidableEq

structure ChatState where
  chats : List Chat
  activeChat : Option Chat
  messages : Int → Option (List Message)
  onlineUsers : List OnlineUser
  typingUsers : Int → Option (List TypingUser)
  unreadCounts : Int → Option Int
  isConnected : Bool
  isLoading : Bool
  messageUpdateTrigger : Int

def initialState : ChatState :=
  { chats := []
    activeChat := none
    messages := fun _ => none
    onlineUsers := []
    typingUsers := fun _ => none
    unreadCounts := fun _ => none
    isConnected := false
    isLoading := true
    messageUpdateTrigger := 0 }

/-- The `Partial<Message>` objects `UPDATE_MESSAGE` is dispatched with: the
code only ever passes subsets of the fields `id`, `timestamp`, `status`. -/
structure MessageUpdates where
  id : Option Int := none
  timestamp : Option Int := none
  status : Option String := none
deriving DecidableEq

/-- Object spread `{ ...msg, ...updates }` for the fields above. -/
def applyUpdates (msg : Message) (u : MessageUpdates) : Message :=
  { msg with
    id := u.id.getD msg.id
    timestamp := u.timestamp.getD msg.timestamp
    status := u.status.getD msg.status }

inductive ChatAction where
  | setChats (payload : List Chat)
  | setActiveChat (payload : Option Chat)
  | addChat (payload : Chat)
  | removeChat (payload : Int)
  | setMessages (chatId : Int) (messages : List Message)
  | addMessage (payload : Message ⊕ MessageData)
  | updateMessage (chatId : Int) (messageId : Int) (updates : MessageUpdates)
  | setOnlineUsers (payload : List OnlineUser)
  | userOnline (payload : OnlineUser)
  | userOffline (userId : Int)
  | setTyping (chatId : Int) (users : List TypingUser)
  | incrementUnread (chatId : Int)
  | clearUnread (chatId : Int)
  | setConnectionStatus (payload : Bool)
  | setLoading (payload : Bool)

/-- JavaScript `a || b` on an optional string, where `undefined` and the empty
string are falsy. -/
def jsOr (a : Option String) (b : String) : String :=
  match a with
  | some s => if s = "" then b else s
  | none => b

/-- The `MessageData → Message` conversion at the top of the `ADD_MESSAGE`
reducer case: a string id is replaced by `Date.now()`, and a `sender` object
is synthesized from `senderId`/`senderUsername`. -/
def convertData (now : Int) (m : MessageData) : Message :=
  { id := match m.id with | .num n => n | .str _ => now
    chatId := m.chatId
    senderId := m.senderId
    sender :=
      { id := m.senderId
        username := jsOr m.senderUsername ("User " ++ toString m.senderId)
        createdAt := "" }
    content := m.content
    timestamp := m.timestamp
    status := m.status }

/-- `'sender' in message ? message : { ... }`: a payload that already is a
full `Message` is used as-is, a lightweight `MessageData` is converted. -/
def convertMessage (now : Int) (payload : Message ⊕ MessageData) : Message :=
  match payload with
  | .inl m => m
  | .inr d => convertData now d

/-- The per-existing-message duplicate test inside `ADD_MESSAGE`
(`currentMessages.some(msg => ...)`): if both ids are positive numbers,
compare by id only; otherwise compare sender, content and a 500ms
timestamp window. -/
def matchesExisting (msg newMessage : Message) : Bool :=
  if 0 < msg.id ∧ 0 < newMessage.id then
    msg.id == newMessage.id
  else
    (msg.senderId == newMessage.senderId && msg.content == newMessage.content)
      && decide ((msg.timestamp - newMessage.timestamp).natAbs < 500)

/-- Pointwise update of a JS-object map (`{ ...m, [k]: v }`). -/
def updMap {α : Type} (f : Int → Option α) (k : Int) (v : α) : Int → Option α :=
  fun q => if q = k then some v else f q

def chatReducer (now : Int) (state : ChatState) (action : ChatAction) : ChatState :=
  match action with
  | .setChats cs => { state with chats := cs }
  | .setActiveChat c => { state with activeChat := c }
  | .addChat c => { state with chats := c :: state.chats }
  | .removeChat cid =>
      { state with
        chats := state.chats.filter (fun chat => chat.id != cid)
        activeChat :=
          match state.activeChat with
          | some c => if c.id = cid then none else some c
          | none => none }
  | .setMessages cid ms => { state with messages := updMap state.messages cid ms }
  | .addMessage payload =>
      let newMessage := convertMessage now payload
      let chatId := newMessage.chatId
      let currentMessages := (state.messages chatId).getD []
      let messageExists := currentMessages.any (fun msg => matchesExisting msg newMessage)
      if messageExists then state
      else
        { state with
          messages := updMap state.messages chatId (currentMessages ++ [newMessage])
          messageUpdateTrigger := state.messageUpdateTrigger + 1 }
  | .updateMessage cid mid upd =>
      let chatMessages := (state.messages cid).getD []
      let updatedMessages :=
        chatMessages.map (fun msg => if msg.id = mid then applyUpdates msg upd else msg)
      { state with messages := updMap state.messages cid updatedMessages }
  | .setOnlineUsers us => { state with onlineUsers := us }
  | .userOnline u =>
      if (state.onlineUsers.find? (fun v => v.userId == u.userId)).isSome then state
      else { state with onlineUsers := state.onlineUsers ++ [u] }
  | .userOffline uid =>
      { state with onlineUsers := state.onlineUsers.filter (fun v => v.userId != uid) }
  | .setTyping cid users => { state with typingUsers := updMap state.typingUsers cid users }
  | .incrementUnread cid =>
      { state with
        unreadCounts := updMap state.unreadCounts cid ((state.unreadCounts cid).getD 0 + 1) }
  | .clearUnread cid => { state with unreadCounts := updMap state.unreadCounts cid 0 }
  | .setConnectionStatus b => { state with isConnected := b }
  | .setLoading b => { state with isLoading := b }

/-- A chat's visible timeline: `state.messages[chatId] || []`. -/
def timeline (st : ChatState) (cid : Int) : List Message :=
  (st.messages cid).getD []

/-- A chat's unread counter: `state.unreadCounts[chatId] || 0`. -/
def unread (st : ChatState) (cid : Int) : Int :=
  (st.unreadCounts cid).getD 0

/-- `activeChatRef.current && messageData.chatId === activeChatRef.current.id`. -/
def isActiveChatB (active : Option Chat) (cid : Int) : Bool :=
  match active with
  | some c => cid == c.id
  | none => false

structure ReceiveOutcome where
  state : ChatState
  notified : Option (Int × String × String)

/-- The `signalRService.onReceiveMessage` handler. `selfId` is `user.id`,
`hasCallback` records whether `newMessageCallbackRef.current` is set.
The deferred `SET_LOADING false` dispatch the handler schedules for the
active chat is modelled as applied immediately. -/
def onReceiveMessage (selfId : Int) (hasCallback : Bool) (now : Int)
    (messageData : MessageData) (st : ChatState) : ReceiveOutcome :=
  let isActiveChat := isActiveChatB st.activeChat messageData.chatId
  let isOwnMessage := messageData.senderId == selfId
  let st1 := chatReducer now st (.addMessage (.inr messageData))
  let st2 := if isActiveChat then chatReducer now st1 (.setLoading false) else st1
  if !isActiveChat && !isOwnMessage then
    { state := chatReducer now st2 (.incrementUnread messageData.chatId)
      notified :=
        if hasCallback then
          some (messageData.chatId,
                jsOr messageData.senderUsername ("User " ++ toString messageData.senderId),
                messageData.content)
        else none }
  else
    { state := st2, notified := none }

/-- The `signalRService.onUserTyping` handler. The `if (chatId)` guard drops
events whose `chatId` is `undefined` or `0` (falsy). The clock argument of
`chatReducer` is irrelevant to `SET_TYPING`. -/
def onUserTyping (userId : Int) (username : String) (isTyping : Bool)
    (chatId : Option Int) (st : ChatState) : ChatState :=
  match chatId with
  | none => st
  | some cid =>
      if cid = 0 then st
      else
        let currentTyping := (st.typingUsers cid).getD []
        let newTyping :=
          if isTyping then
            if (currentTyping.find? (fun u => u.userId == userId)).isSome then currentTyping
            else currentTyping ++ [{ userId := userId, username := username, isTyping := isTyping }]
          else currentTyping.filter (fun u => u.userId != userId)
        chatReducer 0 st (.setTyping cid newTyping)

/-- The provisional local echo built by `sendMessage`: `tempId = Date.now()`
and `timestamp = new Date().toISOString()` are both reads of the same clock
instant, modelled by the single argument `now`. -/
def tempMessage (user : User) (chatId : Int) (content : String) (now : Int) : Message :=
  { id := now
    chatId := chatId
    senderId := user.id
    sender := user
    content := content
    timestamp := now
    status := "sent" }

/-- Steps 1-2 of `sendMessage`: dispatch `ADD_MESSAGE` with the optimistic
echo, synchronously, before the network call. -/
def sendMessageOptimistic (user : User) (chatId : Int) (content : String) (now : Int)
    (st : ChatState) : ChatState :=
  chatReducer now st (.addMessage (.inl (tempMessage user chatId content now)))

/-- Outcome of the single remote `chatService.sendMessage` call (no retry is
issued by the code). -/
inductive SendOutcome where
  | success (saved : Message)
  | failure

/-- The full `sendMessage(chatId, content)` command. The second component of
the result records whether the error was re-raised to the caller. -/
def sendMessage (user : User) (chatId : Int) (content : String) (now : Int)
    (outcome : SendOutcome) (st : ChatState) : ChatState × Bool :=
  let tempId := now
  let st1 := sendMessageOptimistic user chatId content now st
  match outcome with
  | .success saved =>
      if saved.id != tempId then
        (chatReducer now st1 (.updateMessage chatId tempId
            { id := some saved.id, timestamp := some saved.timestamp, status := some saved.status }),
         false)
      else (st1, false)
  | .failure =>
      (chatReducer now st1 (.updateMessage chatId tempId { status := some "failed" }), true)

/-- The `deleteChat(chatId)` command: on remote success dispatch
`REMOVE_CHAT`, on remote failure re-raise with no dispatch. The clock
argument of `chatReducer` is irrelevant to `REMOVE_CHAT`. -/
def deleteChat (remoteOk : Bool) (chatId : Int) (st : ChatState) : ChatState × Bool :=
  if remoteOk then (chatReducer 0 st (.removeChat chatId), false)
  else (st, true)

/-- `getChatDisplayName` from `src/utils/chatUtils.ts`. -/
def getChatDisplayName (chat : Chat) (currentUserId : Int) : String :=
  if chat.type = ChatType.group then
    chat.name
  else
    match chat.participants.find? (fun p => p.userId != currentUserId) with
    | some otherParticipant =>
        jsOr (otherParticipant.user.map User.username)
          (jsOr otherParticipant.username "Unknown User")
    | none => "Unknown User"

/-! ## Concrete example data used by witnesses and counterexamples -/

def userA : User := { id := 1, username := "a", createdAt := "" }

def msg3 : Message :=
  { id := 3, chatId := 7, senderId := 1, sender := userA,
    content := "hi", timestamp := 1000, status := "sent" }

def c5close : Message :=
  { id := 0, chatId := 7, senderId := 1, sender := userA,
    content := "hi", timestamp := 1499, status := "sent" }

def c5far : Message :=
  { id := 0, chatId := 7, senderId := 1, sender := userA,
    content := "hi", timestamp := 1501, status := "sent" }

def st3 : ChatState :=
  { initialState with messages := updMap initialState.messages 7 [msg3] }

def c1md : MessageData :=
  { id := .num 2, chatId := 7, senderId := 1, senderUsername := some "a",
    content := "hi", timestamp := 1100, status := "sent" }

def c1mdFuzzy : MessageData :=
  { id := .num 0, chatId := 7, senderId := 1, senderUsername := some "a",
    content := "hi", timestamp := 1200, status := "sent" }

def c2mdStr : MessageData :=
  { id := .str "tmp", chatId := 7, senderId := 2, senderUsername := some "x",
    content := "hi", timestamp := 50, status := "sent" }

def c2mdNum : MessageData :=
  { id := .num 9, chatId := 7, senderId := 2, senderUsername := some "x",
    content := "hi", timestamp := 50, status := "sent" }

def savedB : Message :=
  { id := 555, chatId := 7, senderId := 1, sender := userA,
    content := "x", timestamp := 2000, status := "sent" }

def c6md : MessageData :=
  { id := .num 4, chatId := 7, senderId := 2, senderUsername := some "x",
    content := "hi", timestamp := 60, status := "sent" }

def chat1 : Chat :=
  { id := 1, name := "c", type := .direct, createdAt := "", participants := [] }

def c7msg : Message :=
  { id := 3, chatId := 1, senderId := 1, sender := userA,
    content := "hi", timestamp := 1000, status := "sent" }

def c7st : ChatState :=
  { initialState with
    chats := [chat1]
    activeChat := some chat1
    messages := updMap initialState.messages 1 [c7msg] }

def uMe : User := { id := 1, username := "me", createdAt := "" }

def uBlank : User := { id := 2, username := "", createdAt := "" }

def uBob : User := { id := 2, username := "bob", createdAt := "" }

def pMe : ChatParticipant :=
  { chatId := 5, userId := 1, joinedAt := "", user := some uMe, username := some "me" }

def pBlank : ChatParticipant :=
  { chatId := 5, userId := 2, joinedAt := "", user := some uBlank, username := none }

def c9chat : Chat :=
  { id := 5, name := "", type := .direct, createdAt := "", participants := [pMe, pBlank] }

def pBob : ChatParticipant :=
  { chatId := 6, userId := 2, joinedAt := "", user := some uBob, username := some "bob" }

def pMe6 : ChatParticipant :=
  { chatId := 6, userId := 1, joinedAt := "", user := some uMe, username := some "me" }

def chatAB : Chat :=
  { id := 6, name := "", type := .direct, createdAt := "", participants := [pMe6, pBob] }

def chatBA : Chat :=
  { id := 6, name := "", type := .direct, createdAt := "", participants := [pBob, pMe6] }

def pFall : ChatParticipant :=
  { chatId := 6, userId := 2, joinedAt := "", user := none, username := some "bo" }

def chatFall : Chat :=
  { id := 6, name := "", type := .direct, createdAt := "", participants := [pMe6, pFall] }

/-! ## Basic lemmas about the reducer -/

theorem updMap_self {α : Type} (f : Int → Option α) (k : Int) (v : α) :
    updMap f k v k = some v := by
  simp [updMap]

theorem updMap_ne {α : Type} (f : Int → Option α) (k q : Int) (v : α) (h : q ≠ k) :
    updMap f k v q = f q := by
  simp [updMap, h]

theorem matchesExisting_self (m : Message) : matchesExisting m m = true := by
  unfold matchesExisting
  split
  · simp
  · simp

theorem addMessage_unreadCounts (now : Int) (st : ChatState) (p : Message ⊕ MessageData) :
    (chatReducer now st (.addMessage p)).unreadCounts = st.unreadCounts := by
  simp only [chatReducer]
  split <;> rfl

theorem addMessage_activeChat (now : Int) (st : ChatState) (p : Message ⊕ MessageData) :
    (chatReducer now st (.addMessage p)).activeChat = st.activeChat := by
  simp only [chatReducer]
  split <;> rfl

theorem timeline_setLoading (now : Int) (st : ChatState) (b : Bool) (c : Int) :
    timeline (chatReducer now st (.setLoading b)) c = timeline st c := rfl

theorem timeline_incrementUnread (now : Int) (st : ChatState) (k c : Int) :
    timeline (chatReducer now st (.incrementUnread k)) c = timeline st c := rfl

theorem timeline_addMessage (now : Int) (st : ChatState) (p : Message ⊕ MessageData) :
    timeline (chatReducer now st (.addMessage p)) (convertMessage now p).chatId =
      if (timeline st (convertMessage now p).chatId).any
          (fun m => matchesExisting m (convertMessage now p)) then
        timeline st (convertMessage now p).chatId
      else
        timeline st (convertMessage now p).chatId ++ [convertMessage now p] := by
  simp only [chatReducer, timeline]
  split
  · rfl
  · simp [updMap]

theorem timeline_updateMessage (now : Int) (st : ChatState) (cid mid : Int)
    (upd : MessageUpdates) :
    timeline (chatReducer now st (.updateMessage cid mid upd)) cid =
      (timeline st cid).map (fun msg => if msg.id = mid then applyUpdates msg upd else msg) := by
  simp only [chatReducer, timeline]
  rw [updMap_self]
  rfl

theorem receive_timeline (selfId : Int) (cb : Bool) (now : Int) (md : MessageData)
    (st : ChatState) :
    timeline (onReceiveMessage selfId cb now md st).state md.chatId =
      if (timeline st md.chatId).any (fun m => matchesExisting m (convertData now md)) then
        timeline st md.chatId
      else
        timeline st md.chatId ++ [convertData now md] := by
  have hc : (convertMessage now (.inr md)).chatId = md.chatId := rfl
  have hadd := timeline_addMessage now st (.inr md)
  rw [hc] at hadd
  unfold onReceiveMessage
  simp only []
  split
  · split <;>
      simp only [timeline_incrementUnread, timeline_setLoading] <;> exact hadd
  · split <;>
      simp only [timeline_incrementUnread, timeline_setLoading] <;> exact hadd

/-! ## Claims -/

/-- C10: an inbound typing-changed event whose `chatId` is absent or equal
to `0` is dropped by the handler's `if (chatId)` guard and leaves the store
state completely unchanged, regardless of `userId`, `username` or the
`isTyping` flag. -/
theorem c10_typing_guard_drops (userId : Int) (username : String) (isTyping : Bool)
    (st : ChatState) :
    onUserTyping userId username isTyping none st = st ∧
    onUserTyping userId username isTyping (some 0) st = st := by
  constructor
  · rfl
  · simp [onUserTyping]

/-- C3: whenever both the incoming message and an existing timeline message
have a positive numeric id, the duplicate test treats them as the same
message exactly when the ids are equal; the fuzzy content/timestamp branch
is not consulted. -/
theorem c3_id_match_precedence (m n : Message) (hm : 0 < m.id) (hn : 0 < n.id) :
    (matchesExisting m n = true ↔ m.id = n.id) := by
  unfold matchesExisting
  rw [if_pos ⟨hm, hn⟩]
  exact beq_iff_eq

/-- C3 witness: two messages sharing the positive id 5 but with different
content, sender and far-apart timestamps are treated as the same message. -/
theorem c3_id_match_witness :
    (0 : Int) < 5 ∧
    matchesExisting
      { id := 5, chatId := 7, senderId := 1,
        sender := { id := 1, username := "a", createdAt := "" },
        content := "first", timestamp := 0, status := "sent" }
      { id := 5, chatId := 7, senderId := 2,
        sender := { id := 2, username := "b", createdAt := "" },
        content := "second", timestamp := 1000000, status := "sent" } = true :=
  ⟨by decide,
   (c3_id_match_precedence _ _ (by decide) (by decide)).mpr (by decide)⟩

/-- C5: in the fuzzy branch of the duplicate test (id-equality matching not
applicable), an incoming message with the same sender and content as the
existing one and a timestamp strictly less than 500ms away is dropped, while
at 501ms apart both messages are kept. -/
theorem c5_fuzzy_window :
    (∀ (now : Int) (st : ChatState) (m n : Message),
        timeline st n.chatId = [m] →
        ¬(0 < m.id ∧ 0 < n.id) →
        m.senderId = n.senderId → m.content = n.content →
        (m.timestamp - n.timestamp).natAbs < 500 →
        timeline (chatReducer now st (.addMessage (.inl n))) n.chatId = [m])
    ∧ (∀ (now : Int) (st : ChatState) (m n : Message),
        timeline st n.chatId = [m] →
        ¬(0 < m.id ∧ 0 < n.id) →
        m.senderId = n.senderId → m.content = n.content →
        (m.timestamp - n.timestamp).natAbs = 501 →
        timeline (chatReducer now st (.addMessage (.inl n))) n.chatId = [m, n]) := by
  constructor
  · intro now st m n htl hid hs hc ht
    have hmatch : matchesExisting m n = true := by
      unfold matchesExisting
      rw [if_neg hid]
      simp [hs, hc, ht]
    have := timeline_addMessage now st (.inl n)
    simp only [convertMessage] at this
    rw [htl] at this
    simpa [hmatch] using this
  · intro now st m n htl hid hs hc ht
    have hmatch : matchesExisting m n = false := by
      unfold matchesExisting
      rw [if_neg hid]
      simp [ht]
    have := timeline_addMessage now st (.inl n)
    simp only [convertMessage] at this
    rw [htl] at this
    simpa [hmatch] using this

/-- C5 witness: with non-positive incoming id, a 499ms-apart equal message is
absorbed and a 501ms-apart one is appended. -/
theorem c5_fuzzy_witness :
    timeline (chatReducer 50 st3 (.addMessage (.inl c5close))) 7 = [msg3]
    ∧ timeline (chatReducer 50 st3 (.addMessage (.inl c5far))) 7 = [msg3, c5far] :=
  ⟨c5_fuzzy_window.1 50 st3 msg3 c5close (by decide) (by decide) (by decide) (by decide)
      (by decide),
   c5_fuzzy_window.2 50 st3 msg3 c5far (by decide) (by decide) (by decide) (by decide)
      (by decide)⟩

/-- C1 counterexample: after `sendMessage` has appended its optimistic echo
(provisional id `Date.now() = 1000`), a realtime event for the same chat with
the same content and sender, timestamped 100ms after the echo, but carrying
the positive server id `2`, is compared by id equality only: it does not
match the echo and a second entry is appended, so the timeline grows from
1 to 2 entries instead of staying at 1. -/
theorem c1_echo_counterexample :
    (timeline (sendMessageOptimistic userA 7 "hi" 1000 initialState) 7).length = 1
    ∧ (timeline (onReceiveMessage 1 false 1100 c1md
          (sendMessageOptimistic userA 7 "hi" 1000 initialState)).state 7).length = 2 := by
  constructor
  · decide
  · decide

/-- C1 (amended): after `sendMessage(chatId, content)` has appended its
optimistic echo, handling a realtime message-received event for the same
chat with the same content and senderId and a timestamp within 400ms of the
echo's leaves the timeline unchanged, provided the event's normalized id is
not positive (so the id-equality branch of the duplicate test does not
apply); an event carrying a positive numeric id different from the echo's
provisional id is instead appended as a second entry (see the
counterexample). -/
theorem c1_echo_absorbed_amended
    (user : User) (chatId : Int) (content : String) (now0 : Int) (st : ChatState)
    (selfId : Int) (cb : Bool) (now : Int) (md : MessageData)
    (hchat : md.chatId = chatId)
    (hsender : md.senderId = user.id)
    (hcontent : md.content = content)
    (hid : (convertData now md).id ≤ 0)
    (hclose : (now0 - md.timestamp).natAbs < 400)
    (hfresh : (timeline st chatId).any
        (fun m => matchesExisting m (tempMessage user chatId content now0)) = false) :
    timeline (onReceiveMessage selfId cb now md
        (sendMessageOptimistic user chatId content now0 st)).state md.chatId
      = timeline (sendMessageOptimistic user chatId content now0 st) md.chatId := by
  have hconvchat : (convertMessage now0 (.inl (tempMessage user chatId content now0))).chatId
      = chatId := rfl
  have htl1 : timeline (sendMessageOptimistic user chatId content now0 st) chatId
      = timeline st chatId ++ [tempMessage user chatId content now0] := by
    have h := timeline_addMessage now0 st (.inl (tempMessage user chatId content now0))
    rw [hconvchat] at h
    simp only [convertMessage] at h
    rw [sendMessageOptimistic, h, hfresh]
    simp
  have hmatch : matchesExisting (tempMessage user chatId content now0) (convertData now md)
      = true := by
    unfold matchesExisting
    rw [if_neg (by
      intro hpos
      have := hpos.2
      omega)]
    have hs : (tempMessage user chatId content now0).senderId = (convertData now md).senderId := by
      simp [tempMessage, convertData, hsender]
    have hc : (tempMessage user chatId content now0).content = (convertData now md).content := by
      simp [tempMessage, convertData, hcontent]
    have ht : ((tempMessage user chatId content now0).timestamp
        - (convertData now md).timestamp).natAbs < 500 := by
      have : (tempMessage user chatId content now0).timestamp = now0 := rfl
      have h2 : (convertData now md).timestamp = md.timestamp := rfl
      rw [this, h2]
      omega
    simp [hs, hc, ht]
  have hany : (timeline (sendMessageOptimistic user chatId content now0 st) chatId).any
      (fun m => matchesExisting m (convertData now md)) = true := by
    rw [htl1]
    simp only [List.any_append, List.any_cons, List.any_nil, Bool.or_eq_true]
    right
    simp [hmatch]
  rw [receive_timeline]
  rw [hchat, hany]
  simp

/-- C1 witness: the echo sent at clock 1000 is absorbed by the fuzzy branch
when the event arrives 200ms later with the non-positive normalized id 0. -/
theorem c1_echo_absorbed_witness :
    timeline (onReceiveMessage 1 false 1200 c1mdFuzzy
        (sendMessageOptimistic userA 7 "hi" 1000 initialState)).state 7
      = timeline (sendMessageOptimistic userA 7 "hi" 1000 initialState) 7 :=
  c1_echo_absorbed_amended userA 7 "hi" 1000 initialState 1 false 1200 c1mdFuzzy
    (by decide) (by decide) (by decide) (by decide) (by decide) (by decide)

/-- C2 counterexample: an event whose id is the string `"tmp"` is re-keyed
to `Date.now()` on each delivery; delivered once at clock 1 and again at
clock 2, both normalized ids are positive and different, so the id-equality
branch reports no duplicate and the second delivery appends a second entry:
the timeline holds 2 messages, not exactly 1. -/
theorem c2_replay_counterexample :
    (timeline (onReceiveMessage 1 false 1 c2mdStr initialState).state 7).length = 1
    ∧ (timeline (onReceiveMessage 1 false 2 c2mdStr
          (onReceiveMessage 1 false 1 c2mdStr initialState).state).state 7).length = 2 := by
  constructor
  · decide
  · decide

/-- C2 (amended): for every store state and every message-received event
whose id is numeric, delivering the identical event twice in a row for the
same chat leaves the timeline after the second delivery equal to the
timeline after the first: the second delivery never appends a second
visible entry. (Events with a string id are re-keyed to the delivery-time
clock and are not deduplicated when the clock has advanced, see the
counterexample.) -/
theorem c2_replay_idempotent
    (selfId : Int) (cb1 cb2 : Bool) (now1 now2 : Int) (md : MessageData) (k : Int)
    (st : ChatState) (hk : md.id = MsgId.num k) :
    timeline (onReceiveMessage selfId cb2 now2 md
        (onReceiveMessage selfId cb1 now1 md st).state).state md.chatId
      = timeline (onReceiveMessage selfId cb1 now1 md st).state md.chatId := by
  have hconv : convertData now2 md = convertData now1 md := by
    simp [convertData, hk]
  rw [receive_timeline selfId cb2 now2 md, hconv]
  rw [receive_timeline selfId cb1 now1 md]
  by_cases hany : ((timeline st md.chatId).any
      (fun m => matchesExisting m (convertData now1 md))) = true
  · rw [if_pos hany, if_pos hany]
  · rw [if_neg hany]
    rw [if_pos ?side]
    case side =>
      simp only [List.any_append, List.any_cons, List.any_nil, Bool.or_eq_true]
      right
      left
      exact matchesExisting_self (convertData now1 md)

/-- C2 witness: a numeric-id event delivered twice at different clocks
yields the same timeline after the second delivery as after the first. -/
theorem c2_replay_witness :
    timeline (onReceiveMessage 1 true 20 c2mdNum
        (onReceiveMessage 1 true 10 c2mdNum initialState).state).state 7
      = timeline (onReceiveMessage 1 true 10 c2mdNum initialState).state 7 :=
  c2_replay_idempotent 1 true true 10 20 c2mdNum 9 initialState (by decide)

/-- C4: if the server send succeeds with an id different from the
provisional one, the rewrite leaves the timeline length unchanged, rewrites
the provisional entry in place (same array position, id/timestamp/status
taken from the server message), and leaves every other entry untouched: the
message is neither duplicated nor reordered. -/
theorem c4_optimistic_rewrite
    (user : User) (chatId : Int) (content : String) (now : Int) (saved : Message)
    (st : ChatState) (i : Nat) (m : Message) (hid : saved.id ≠ now) :
    ((timeline (sendMessage user chatId content now (.success saved) st).1 chatId).length
        = (timeline (sendMessageOptimistic user chatId content now st) chatId).length)
    ∧ ((timeline (sendMessageOptimistic user chatId content now st) chatId)[i]? = some m →
        m.id = now →
        (timeline (sendMessage user chatId content now (.success saved) st).1 chatId)[i]?
          = some { m with id := saved.id, timestamp := saved.timestamp,
                          status := saved.status })
    ∧ ((timeline (sendMessageOptimistic user chatId content now st) chatId)[i]? = some m →
        m.id ≠ now →
        (timeline (sendMessage user chatId content now (.success saved) st).1 chatId)[i]?
          = some m) := by
  have hbne : (saved.id != now) = true := by
    simp [hid]
  have hres : (sendMessage user chatId content now (.success saved) st).1
      = chatReducer now (sendMessageOptimistic user chatId content now st)
          (.updateMessage chatId now
            { id := some saved.id, timestamp := some saved.timestamp,
              status := some saved.status }) := by
    simp [sendMessage, hbne]
  rw [hres, timeline_updateMessage]
  refine ⟨by simp, ?_, ?_⟩
  · intro hget hm
    rw [List.getElem?_map, hget]
    simp [hm, applyUpdates]
  · intro hget hm
    rw [List.getElem?_map, hget]
    simp [hm]

/-- C4 witness: sending "x" to chat 7 at clock 1000 from an empty store and
confirming with server id 555 leaves a single-entry timeline whose entry sits
at position 0 with id 555. -/
theorem c4_optimistic_rewrite_witness :
    (timeline (sendMessage userA 7 "x" 1000 (.success savedB) initialState).1 7).length
      = (timeline (sendMessageOptimistic userA 7 "x" 1000 initialState) 7).length
    ∧ (timeline (sendMessage userA 7 "x" 1000 (.success savedB) initialState).1 7)[0]?
      = some { id := 555, chatId := 7, senderId := 1, sender := userA,
               content := "x", timestamp := 2000, status := "sent" } :=
  ⟨(c4_optimistic_rewrite userA 7 "x" 1000 savedB initialState 0
      (tempMessage userA 7 "x" 1000) (by decide)).1,
   (c4_optimistic_rewrite userA 7 "x" 1000 savedB initialState 0
      (tempMessage userA 7 "x" 1000) (by decide)).2.1 (by decide) (by decide)⟩

/-- C8: if the remote send fails, the optimistic message stays in the
timeline at its position with its status rewritten to failed, the timeline
length is unchanged, every other entry is untouched, and the error is
re-raised to the caller. -/
theorem c8_send_failure_marks_failed
    (user : User) (chatId : Int) (content : String) (now : Int)
    (st : ChatState) (i : Nat) (m : Message) :
    ((timeline (sendMessage user chatId content now .failure st).1 chatId).length
        = (timeline (sendMessageOptimistic user chatId content now st) chatId).length)
    ∧ ((timeline (sendMessageOptimistic user chatId content now st) chatId)[i]? = some m →
        m.id = now →
        (timeline (sendMessage user chatId content now .failure st).1 chatId)[i]?
          = some { m with status := "failed" })
    ∧ ((timeline (sendMessageOptimistic user chatId content now st) chatId)[i]? = some m →
        m.id ≠ now →
        (timeline (sendMessage user chatId content now .failure st).1 chatId)[i]? = some m)
    ∧ (sendMessage user chatId content now .failure st).2 = true := by
  have hres : (sendMessage user chatId content now .failure st).1
      = chatReducer now (sendMessageOptimistic user chatId content now st)
          (.updateMessage chatId now { status := some "failed" }) := rfl
  rw [hres, timeline_updateMessage]
  refine ⟨by simp, ?_, ?_, rfl⟩
  · intro hget hm
    rw [List.getElem?_map, hget]
    simp [hm, applyUpdates]
  · intro hget hm
    rw [List.getElem?_map, hget]
    simp [hm]

/-- C8 witness: a failed send from an empty store leaves the single
optimistic entry in place at position 0 with status failed and re-raises. -/
theorem c8_send_failure_witness :
    (timeline (sendMessage userA 7 "x" 1000 .failure initialState).1 7).length
      = (timeline (sendMessageOptimistic userA 7 "x" 1000 initialState) 7).length
    ∧ (timeline (sendMessage userA 7 "x" 1000 .failure initialState).1 7)[0]?
      = some { id := 1000, chatId := 7, senderId := 1, sender := userA,
               content := "x", timestamp := 1000, status := "failed" }
    ∧ (sendMessage userA 7 "x" 1000 .failure initialState).2 = true :=
  ⟨(c8_send_failure_marks_failed userA 7 "x" 1000 initialState 0
      (tempMessage userA 7 "x" 1000)).1,
   (c8_send_failure_marks_failed userA 7 "x" 1000 initialState 0
      (tempMessage userA 7 "x" 1000)).2.1 (by decide) (by decide),
   (c8_send_failure_marks_failed userA 7 "x" 1000 initialState 0
      (tempMessage userA 7 "x" 1000)).2.2.2⟩

theorem setLoading_unreadCounts (now : Int) (st : ChatState) (b : Bool) :
    (chatReducer now st (.setLoading b)).unreadCounts = st.unreadCounts := rfl

theorem incrementUnread_unread (now : Int) (st : ChatState) (cid : Int) :
    unread (chatReducer now st (.incrementUnread cid)) cid = unread st cid + 1 := by
  simp [chatReducer, unread, updMap]

/-- C6: a message-received event never increments the unread counter of the
currently active chat; when the affected chat is not active and the sender
is not the local user, that chat's unread counter is incremented by exactly
one, and (when a notification callback is registered) the callback is
invoked with the chatId, the sender display name and the content. -/
theorem c6_unread_policy (selfId : Int) (cb : Bool) (now : Int) (md : MessageData)
    (st : ChatState) :
    (isActiveChatB st.activeChat md.chatId = true →
       (onReceiveMessage selfId cb now md st).state.unreadCounts = st.unreadCounts)
    ∧ (isActiveChatB st.activeChat md.chatId = false → md.senderId ≠ selfId →
        unread (onReceiveMessage selfId cb now md st).state md.chatId
            = unread st md.chatId + 1
        ∧ (cb = true →
            (onReceiveMessage selfId cb now md st).notified
              = some (md.chatId,
                  jsOr md.senderUsername ("User " ++ toString md.senderId),
                  md.content))) := by
  constructor
  · intro ha
    simp only [onReceiveMessage, ha, Bool.not_true, Bool.false_and, Bool.false_eq_true,
      if_false, if_true, ite_true, ite_false]
    rw [setLoading_unreadCounts]
    exact addMessage_unreadCounts now st (.inr md)
  · intro ha hown
    have hob : (md.senderId == selfId) = false := by simp [hown]
    have hstate : (onReceiveMessage selfId cb now md st).state
        = chatReducer now (chatReducer now st (.addMessage (.inr md)))
            (.incrementUnread md.chatId) := by
      simp only [onReceiveMessage, ha, hob, Bool.not_false, Bool.true_and,
        Bool.false_eq_true, if_false, ite_false]
      rw [if_pos trivial]
    have hnote : (onReceiveMessage selfId cb now md st).notified
        = if cb then
            some (md.chatId,
              jsOr md.senderUsername ("User " ++ toString md.senderId), md.content)
          else none := by
      simp only [onReceiveMessage, ha, hob, Bool.not_false, Bool.true_and,
        Bool.false_eq_true, if_false, ite_false]
      rw [if_pos trivial]
    constructor
    · rw [hstate, incrementUnread_unread]
      have : unread (chatReducer now st (.addMessage (.inr md))) md.chatId
          = unread st md.chatId := by
        unfold unread
        rw [addMessage_unreadCounts]
      rw [this]
    · intro hcb
      rw [hnote, hcb]
      simp

/-- C6 witness: an event for inactive chat 7 from non-self sender 2
increments that chat's unread counter from 0 to 1 and invokes the
registered callback with the chat id, sender display name and content. -/
theorem c6_unread_witness :
    unread (onReceiveMessage 1 true 1 c6md initialState).state 7
        = unread initialState 7 + 1
    ∧ (onReceiveMessage 1 true 1 c6md initialState).notified = some (7, "x", "hi") := by
  have h := (c6_unread_policy 1 true 1 c6md initialState).2 (by decide) (by decide)
  refine ⟨h.1, ?_⟩
  rw [h.2 rfl]
  rfl

/-- C7 counterexample: deleting chat 1 (whose timeline holds one message)
succeeds: the chat leaves the list and the active selection, but its message
timeline is NOT cleared — `REMOVE_CHAT` never touches `state.messages` —
contradicting the claim's "its message timeline is cleared". -/
theorem c7_delete_counterexample :
    (deleteChat true 1 c7st).1.chats = []
    ∧ timeline (deleteChat true 1 c7st).1 1 = [c7msg]
    ∧ [c7msg] ≠ ([] : List Message) := by
  refine ⟨by decide, by decide, by decide⟩

/-- C7 (amended): on remote success `deleteChat` removes the chat from the
list and clears the active selection if that chat was active, while the
chat's message timeline is left in place (not cleared); on remote failure
no local state mutation occurs and the error is re-raised to the caller. -/
theorem c7_delete_chat (cid : Int) (st : ChatState) :
    ((deleteChat true cid st).1.chats = st.chats.filter (fun c => c.id != cid)
     ∧ (deleteChat true cid st).1.messages = st.messages
     ∧ (∀ c, st.activeChat = some c → c.id = cid →
         (deleteChat true cid st).1.activeChat = none)
     ∧ (∀ c, st.activeChat = some c → c.id ≠ cid →
         (deleteChat true cid st).1.activeChat = some c)
     ∧ (deleteChat true cid st).2 = false)
    ∧ deleteChat false cid st = (st, true) := by
  refine ⟨⟨rfl, rfl, ?_, ?_, rfl⟩, rfl⟩
  · intro c hc hc2
    simp [deleteChat, chatReducer, hc, hc2]
  · intro c hc hc2
    simp [deleteChat, chatReducer, hc, hc2]

/-- C7 witness: deleting active chat 1 clears the selection and reports no
error; a failed delete returns the state unchanged with the error
re-raised. -/
theorem c7_delete_witness :
    (deleteChat true 1 c7st).1.activeChat = none
    ∧ (deleteChat true 1 c7st).2 = false
    ∧ deleteChat false 1 c7st = (c7st, true) :=
  ⟨(c7_delete_chat 1 c7st).1.2.2.1 chat1 rfl rfl,
   (c7_delete_chat 1 c7st).1.2.2.2.2,
   (c7_delete_chat 1 c7st).2⟩

/-- C9 counterexample: a direct chat contains the current user (id 1) and a
second participant (id 2) whose username fields are empty or absent; the
derivation returns the placeholder "Unknown User" even though a participant
with a different userId is present, contradicting "returning a fixed
placeholder string only when no participant with a userId different from
the current user's is resolvable" (the other participant's username is the
empty string, not the placeholder). -/
theorem c9_display_counterexample :
    getChatDisplayName c9chat 1 = "Unknown User"
    ∧ c9chat.type = ChatType.direct
    ∧ c9chat.participants.map (fun p => (p.userId, p.user.map User.username))
        = [(1, some "me"), (2, some "")] := by
  refine ⟨by decide, by decide, by decide⟩

/-- C9 (amended): the display-name derivation is a pure function that
returns the chat's name for every group chat; for a direct chat whose
participants are the current user and one other participant (in either
array order) it resolves the other participant through the full chain
`user?.username || username || "Unknown User"`: the embedded user object's
username when nonempty, else the participant-level username field when
nonempty, else the fixed placeholder; and it returns the placeholder when
no participant with a userId different from the current user's exists. -/
theorem c9_display_name :
    (∀ (chat : Chat) (uid : Int), chat.type = ChatType.group →
        getChatDisplayName chat uid = chat.name)
    ∧ (∀ (chat : Chat) (uid : Int) (self other : ChatParticipant),
        chat.type = ChatType.direct →
        (chat.participants = [self, other] ∨ chat.participants = [other, self]) →
        self.userId = uid → other.userId ≠ uid →
          ((∀ u : User, other.user = some u → u.username ≠ "" →
              getChatDisplayName chat uid = u.username)
           ∧ ((other.user = none ∨ Option.map User.username other.user = some "") →
              ∀ s : String, other.username = some s → s ≠ "" →
                getChatDisplayName chat uid = s)
           ∧ ((other.user = none ∨ Option.map User.username other.user = some "") →
              (other.username = none ∨ other.username = some "") →
                getChatDisplayName chat uid = "Unknown User")))
    ∧ (∀ (chat : Chat) (uid : Int), chat.type = ChatType.direct →
        (∀ p ∈ chat.participants, p.userId = uid) →
        getChatDisplayName chat uid = "Unknown User") := by
  refine ⟨?_, ?_, ?_⟩
  · intro chat uid h
    unfold getChatDisplayName
    rw [if_pos h]
  · intro chat uid self other htype hperm hs ho
    have hfind : chat.participants.find? (fun p => p.userId != uid) = some other := by
      cases hperm with
      | inl h =>
          rw [h, List.find?_cons_of_neg, List.find?_cons_of_pos]
          · simp [ho]
          · simp [hs]
      | inr h =>
          rw [h, List.find?_cons_of_pos]
          simp [ho]
    have hmain : getChatDisplayName chat uid
        = jsOr (Option.map User.username other.user)
            (jsOr other.username "Unknown User") := by
      unfold getChatDisplayName
      rw [if_neg (by simp [htype]), hfind]
    refine ⟨?_, ?_, ?_⟩
    · intro u hu hname
      rw [hmain, hu]
      simp [jsOr, hname]
    · intro hempty s hsome hs2
      have h1 : jsOr (Option.map User.username other.user)
            (jsOr other.username "Unknown User")
          = jsOr other.username "Unknown User" := by
        cases hempty with
        | inl h => rw [h]; rfl
        | inr h => rw [h]; simp [jsOr]
      rw [hmain, h1, hsome]
      simp [jsOr, hs2]
    · intro hempty hempties
      have h1 : jsOr (Option.map User.username other.user)
            (jsOr other.username "Unknown User")
          = jsOr other.username "Unknown User" := by
        cases hempty with
        | inl h => rw [h]; rfl
        | inr h => rw [h]; simp [jsOr]
      rw [hmain, h1]
      cases hempties with
      | inl h => rw [h]; rfl
      | inr h => rw [h]; simp [jsOr]
  · intro chat uid htype hall
    unfold getChatDisplayName
    rw [if_neg (by simp [htype])]
    have hfind : chat.participants.find? (fun p => p.userId != uid) = none := by
      rw [List.find?_eq_none]
      intro p hp
      simp [hall p hp]
    rw [hfind]

/-- C9 witness: in a direct chat between "me" (id 1) and "bob" (id 2) the
name resolves to "bob" in either participant array order; with the user
object absent it falls back to the participant-level username field "bo";
with an empty embedded username and no participant-level field it yields
the placeholder. -/
theorem c9_display_witness :
    getChatDisplayName chatAB 1 = "bob"
    ∧ getChatDisplayName chatBA 1 = "bob"
    ∧ getChatDisplayName chatFall 1 = "bo"
    ∧ getChatDisplayName c9chat 1 = "Unknown User" :=
  ⟨(c9_display_name.2.1 chatAB 1 pMe6 pBob rfl (Or.inl rfl) rfl (by decide)).1 uBob rfl
      (by decide),
   (c9_display_name.2.1 chatBA 1 pMe6 pBob rfl (Or.inr rfl) rfl (by decide)).1 uBob rfl
      (by decide),
   (c9_display_name.2.1 chatFall 1 pMe6 pFall rfl (Or.inl rfl) rfl (by decide)).2.1
      (Or.inl rfl) "bo" rfl (by decide),
   (c9_display_name.2.1 c9chat 1 pMe pBlank rfl (Or.inl rfl) rfl (by decide)).2.2
      (Or.inr (by decide)) (Or.inl rfl)⟩
